import Mathlib

/-!
Shallow embedding of the BlueZ audio manager (src/audio/manager.c):
UUID classification, the device registry with its default-headset pointer,
the manager facade methods, and the SDP resolution state machine.
Addresses are modelled as 48-bit naturals, identity paths by their numeric
suffix (object_path is AUDIO_MANAGER_PATH followed by the device counter).
-/

/- Bluetooth SDP service-class identifiers (Bluetooth assigned numbers, as
defined by lib/sdp.h which manager.c includes as bluetooth/sdp.h). -/

def HEADSET_SVCLASS_ID : Nat := 0x1108
def HEADSET_AGW_SVCLASS_ID : Nat := 0x1112
def HANDSFREE_SVCLASS_ID : Nat := 0x111e
def HANDSFREE_AGW_SVCLASS_ID : Nat := 0x111f
def AUDIO_SINK_SVCLASS_ID : Nat := 0x110b
def AUDIO_SOURCE_SVCLASS_ID : Nat := 0x110a
def AV_REMOTE_TARGET_SVCLASS_ID : Nat := 0x110c
def AV_REMOTE_SVCLASS_ID : Nat := 0x110e

/-- A service-class UUID as found in a record: 16-bit, 32-bit, a 128-bit
UUID derived from the Bluetooth base UUID (carrying a 32-bit value), or a
128-bit UUID that is not base-derived. -/
inductive SdpUuid
  | u16 (v : Nat)
  | u32 (v : Nat)
  | u128base (v : Nat)
  | u128other
deriving DecidableEq, Repr

/-- A service record as interpreted by manager.c: either it has no
service-class attribute (sdp_get_service_classes fails) or we keep its
first service-class UUID (manager.c reads only classes->data). -/
inductive SdpRec
  | noClasses
  | cls (u : SdpUuid)
deriving DecidableEq, Repr

/-- Modelled from the spec: sdp_uuid128_to_uuid lives in lib/sdp.c, not
under src/.  Per the spec (section 4.1), a 128-bit UUID either reduces to a
16/32-bit value (Bluetooth base UUID) or classification fails; 16/32-bit
UUIDs are left unchanged and the call succeeds on them. -/
def sdp_uuid128_to_uuid (u : SdpUuid) : Option SdpUuid :=
  match u with
  | SdpUuid.u16 v => some (SdpUuid.u16 v)
  | SdpUuid.u32 v => some (SdpUuid.u32 v)
  | SdpUuid.u128base v =>
      some (if v ≤ 0xFFFF then SdpUuid.u16 v else SdpUuid.u32 v)
  | SdpUuid.u128other => none

/-- manager.c get_service_uuid: 0 when there are no service classes, when
the UUID is a 128-bit value that does not reduce, or when a 32-bit UUID
exceeds the 16-bit range; otherwise the 16-bit service-class UUID. -/
def get_service_uuid (record : SdpRec) : Nat :=
  match record with
  | SdpRec.noClasses => 0
  | SdpRec.cls u =>
    match sdp_uuid128_to_uuid u with
    | none => 0
    | some (SdpUuid.u16 v) => v
    | some (SdpUuid.u32 v) => if v > 0xFFFF then 0 else v
    | some _ => 0

/-- The six audio interface categories (AUDIO_*_INTERFACE names). -/
inductive Iface
  | headset | gateway | sink | source | control | target
deriving DecidableEq, Repr

/-- An interface name string as supplied by a caller: one of the six known
AUDIO_*_INTERFACE strings, or any other string. -/
inductive IfaceName
  | known (i : Iface)
  | unknown
deriving DecidableEq, Repr

/-- strcmp on interface names, reduced to 0 (equal) / 1 (different). -/
def iface_strcmp (a b : IfaceName) : Int :=
  if a = b then 0 else 1

/-- manager.c record_iface_cmp: 0 iff the record's service class maps to
the given interface name; unrecognized classes yield -1 (never a match). -/
def record_iface_cmp (record : SdpRec) (interfaceName : IfaceName) : Int :=
  let u := get_service_uuid record
  if u = HEADSET_SVCLASS_ID ∨ u = HANDSFREE_SVCLASS_ID then
    iface_strcmp interfaceName (IfaceName.known Iface.headset)
  else if u = HEADSET_AGW_SVCLASS_ID ∨ u = HANDSFREE_AGW_SVCLASS_ID then
    iface_strcmp interfaceName (IfaceName.known Iface.gateway)
  else if u = AUDIO_SINK_SVCLASS_ID then
    iface_strcmp interfaceName (IfaceName.known Iface.sink)
  else if u = AUDIO_SOURCE_SVCLASS_ID then
    iface_strcmp interfaceName (IfaceName.known Iface.source)
  else if u = AV_REMOTE_SVCLASS_ID then
    iface_strcmp interfaceName (IfaceName.known Iface.control)
  else if u = AV_REMOTE_TARGET_SVCLASS_ID then
    iface_strcmp interfaceName (IfaceName.known Iface.target)
  else -1

/-- The static class-id to interface-category mapping of record_iface_cmp,
as a function into Option Iface (none = unrecognized/Unknown). -/
def interface_of (u : Nat) : Option Iface :=
  if u = HEADSET_SVCLASS_ID ∨ u = HANDSFREE_SVCLASS_ID then
    some Iface.headset
  else if u = HEADSET_AGW_SVCLASS_ID ∨ u = HANDSFREE_AGW_SVCLASS_ID then
    some Iface.gateway
  else if u = AUDIO_SINK_SVCLASS_ID then some Iface.sink
  else if u = AUDIO_SOURCE_SVCLASS_ID then some Iface.source
  else if u = AV_REMOTE_SVCLASS_ID then some Iface.control
  else if u = AV_REMOTE_TARGET_SVCLASS_ID then some Iface.target
  else none

/-- audio_device_t: address, identity path (numeric suffix of object_path)
and the six optional profile handles (opaque handles modelled as Nat). -/
structure AudioDevice where
  id : Nat
  bda : Nat
  headset : Option Nat := none
  gateway : Option Nat := none
  sink : Option Nat := none
  source : Option Nat := none
  control : Option Nat := none
  target : Option Nat := none
deriving DecidableEq, Repr

/-- The profile handle a device holds for a given interface category. -/
def profile_handle (d : AudioDevice) : Iface → Option Nat
  | Iface.headset => d.headset
  | Iface.gateway => d.gateway
  | Iface.sink => d.sink
  | Iface.source => d.source
  | Iface.control => d.control
  | Iface.target => d.target

/-- Calls manager.c makes into the headset profile collaborator. -/
inductive ProfEv
  | headsetUpdateCall (h : Nat) (u : Nat)
  | headsetInitCall (deviceId : Nat) (u : Nat)
deriving DecidableEq, Repr

/-- Environment for the external collaborators: whether add_device's D-Bus
registration succeeds, whether reply allocation succeeds, and the result of
headset_init for a given device id (none models a NULL return). -/
structure Env where
  registerOk : Bool
  replyAllocOk : Bool
  headsetInit : Nat → Option Nat

/-- manager.c handle_record: switch on the 16-bit service-class UUID.  Only
the HEADSET_SVCLASS_ID case dispatches to the headset profile handler
(update when a handle exists, init otherwise); every other recognized class
and the default case merely log. -/
def handle_record (env : Env) (record : SdpRec) (device : AudioDevice) :
    AudioDevice × List ProfEv :=
  let uuid16 := get_service_uuid record
  if uuid16 = HEADSET_SVCLASS_ID then
    match device.headset with
    | some h => (device, [ProfEv.headsetUpdateCall h uuid16])
    | none =>
        ({ device with headset := env.headsetInit device.id },
         [ProfEv.headsetInitCall device.id uuid16])
  else if uuid16 = HEADSET_AGW_SVCLASS_ID then (device, [])
  else if uuid16 = HANDSFREE_SVCLASS_ID then (device, [])
  else if uuid16 = HANDSFREE_AGW_SVCLASS_ID then (device, [])
  else if uuid16 = AUDIO_SINK_SVCLASS_ID then (device, [])
  else if uuid16 = AUDIO_SOURCE_SVCLASS_ID then (device, [])
  else if uuid16 = AV_REMOTE_SVCLASS_ID then (device, [])
  else if uuid16 = AV_REMOTE_TARGET_SVCLASS_ID then (device, [])
  else (device, [])

/-- finish_sdp's g_slist_foreach of handle_record over collected records,
threading the device and accumulating the profile calls in order. -/
def applyRecords (env : Env) (device : AudioDevice) :
    List SdpRec → AudioDevice × List ProfEv
  | [] => (device, [])
  | r :: rs =>
    let step := handle_record env r device
    let rest := applyRecords env step.1 rs
    (rest.1, step.2 ++ rest.2)

/-- Error reply names (org.bluez.audio.Error.*); connectFailed carries the
errno whose strerror text is sent (EHOSTDOWN = 112 for host down). -/
inductive ErrName
  | invalidArgs
  | alreadyConnected
  | notConnected
  | notSupported
  | connectFailed (errno : Nat)
  | doesNotExist
  | failed
deriving DecidableEq, Repr

/-- D-Bus signals emitted on AUDIO_MANAGER_PATH; the DefaultHeadsetChanged
parameter is the new default's path or none (the empty string). -/
inductive Signal
  | deviceCreated (p : Nat)
  | deviceRemoved (p : Nat)
  | headsetCreated (p : Nat)
  | headsetRemoved (p : Nat)
  | defaultHeadsetChanged (p : Option Nat)
deriving DecidableEq, Repr

/-- Observable events of one operation or session, in emission order. -/
inductive Ev
  | finishTransaction (addr : Nat)
  | callerError (e : ErrName)
  | callerSuccess (p : Nat)
  | sig (s : Signal)
  | profile (e : ProfEv)
deriving DecidableEq, Repr

/-- Method replies: empty return, a path, a path list, an error reply, or
DBUS_HANDLER_RESULT_NEED_MEMORY (reply allocation failed, nothing sent). -/
inductive MReply
  | okUnit
  | okPath (p : Nat)
  | okPaths (ps : List Nat)
  | err (e : ErrName)
  | needMemory
deriving DecidableEq, Repr

/-- The manager globals: the devices list, the default_hs pointer (device
id) and create_device's static device_id counter. -/
structure ManagerState where
  devices : List AudioDevice
  default_hs : Option Nat
  nextId : Nat
deriving DecidableEq, Repr

/-- manager.c find_device: first device with the given address. -/
def find_device (devices : List AudioDevice) (bda : Nat) : Option AudioDevice :=
  devices.find? (fun d => d.bda = bda)

/-- g_slist_remove by pointer, modelled as removing the first device with
the given id. -/
def remove_first (devices : List AudioDevice) (i : Nat) : List AudioDevice :=
  match devices with
  | [] => []
  | d :: ds => if d.id = i then ds else d :: remove_first ds i

/-- Whether some registered device has the given id. -/
def registry_has (devices : List AudioDevice) (i : Nat) : Bool :=
  devices.any (fun d => d.id = i)

/-- In-place mutation of a registered device, modelled as replacing every
entry carrying its id. -/
def updateDevice (devices : List AudioDevice) (device : AudioDevice) :
    List AudioDevice :=
  devices.map (fun d => if d.id = device.id then device else d)

/-- manager.c device_supports_interface, faithful to the source: the
AUDIO_SOURCE_INTERFACE branch tests device->gateway (manager.c line 803),
not device->source. -/
def device_supports_interface (device : AudioDevice) (iface : IfaceName) :
    Bool :=
  match iface with
  | IfaceName.known Iface.headset => device.headset.isSome
  | IfaceName.known Iface.gateway => device.gateway.isSome
  | IfaceName.known Iface.source => device.gateway.isSome
  | IfaceName.known Iface.sink => device.sink.isSome
  | IfaceName.known Iface.control => device.control.isSome
  | IfaceName.known Iface.target => device.target.isSome
  | IfaceName.unknown => false

/-- manager.c device_matches: all required interfaces supported. -/
def device_matches (device : AudioDevice) (interfaces : List IfaceName) :
    Bool :=
  interfaces.all (fun i => device_supports_interface device i)

/-- manager.c am_list_devices: paths of the registered devices matching all
required interfaces, in registry order. -/
def am_list_devices (st : ManagerState) (required : List IfaceName) :
    List Nat :=
  (st.devices.filter (fun d => device_matches d required)).map
    (fun d => d.id)

/-- Modelled from the spec: section 4.2 list, the claim's reading — a
required interface is supported iff the device holds a non-absent profile
handle of that same interface category (so Source checks the source
handle); unknown interface names are never supported. -/
def spec_supports (device : AudioDevice) (iface : IfaceName) : Bool :=
  match iface with
  | IfaceName.known i => (profile_handle device i).isSome
  | IfaceName.unknown => false

/-- Modelled from the spec: ListDevices per the claim, filtering with
spec_supports instead of device_supports_interface. -/
def spec_list (st : ManagerState) (required : List IfaceName) : List Nat :=
  (st.devices.filter
      (fun d => required.all (fun i => spec_supports d i))).map
    (fun d => d.id)

/-- The tail of am_create_headset once the target device is known and
registered: find-or-init the headset profile; init failure removes the
device (remove_device) and replies Failed; otherwise reply with the path
and emit HeadsetCreated.  The default_hs pointer is never touched. -/
def am_create_headset_hs (st : ManagerState) (env : Env)
    (device : AudioDevice) : ManagerState × List Ev × MReply :=
  match device.headset with
  | some _ =>
    if env.replyAllocOk = false then (st, [], MReply.needMemory)
    else
      (st, [Ev.sig (Signal.headsetCreated device.id)],
       MReply.okPath device.id)
  | none =>
    match env.headsetInit device.id with
    | none =>
      ({ st with devices := remove_first st.devices device.id }, [],
       MReply.err ErrName.failed)
    | some h =>
      let device2 := { device with headset := some h }
      let st2 := { st with devices := updateDevice st.devices device2 }
      if env.replyAllocOk = false then (st2, [], MReply.needMemory)
      else
        (st2, [Ev.sig (Signal.headsetCreated device2.id)],
         MReply.okPath device2.id)

/-- manager.c am_create_headset: find-or-create the device (create bumps
the device_id counter before add_device can fail), register it if new,
then find-or-init the headset profile. -/
def am_create_headset (st : ManagerState) (env : Env) (address : Nat) :
    ManagerState × List Ev × MReply :=
  match find_device st.devices address with
  | some device => am_create_headset_hs st env device
  | none =>
    let device : AudioDevice := { id := st.nextId, bda := address }
    let st1 := { st with nextId := st.nextId + 1 }
    if env.registerOk = false then (st1, [], MReply.err ErrName.failed)
    else
      am_create_headset_hs
        { st1 with devices := st1.devices ++ [device] } env device

/-- manager.c am_remove_device (also RemoveHeadset): remove the device; if
it was the default headset, rescan the remaining devices — the loop keeps
overwriting default_hs, so the last headset-capable device in registry
order wins — and emit one DefaultHeadsetChanged; always emit
HeadsetRemoved then DeviceRemoved. -/
def am_remove_device (st : ManagerState) (env : Env) (path : Nat) :
    ManagerState × List Ev × MReply :=
  match st.devices.find? (fun d => d.id = path) with
  | none => (st, [], MReply.err ErrName.doesNotExist)
  | some device =>
    if env.replyAllocOk = false then (st, [], MReply.needMemory)
    else
      let remaining := remove_first st.devices device.id
      if st.default_hs = some device.id then
        let newDefault := remaining.foldl
          (fun acc d => if d.headset.isSome then some d.id else acc) none
        ({ devices := remaining, default_hs := newDefault,
           nextId := st.nextId },
         [Ev.sig (Signal.defaultHeadsetChanged newDefault),
          Ev.sig (Signal.headsetRemoved path),
          Ev.sig (Signal.deviceRemoved path)],
         MReply.okUnit)
      else
        ({ st with devices := remaining },
         [Ev.sig (Signal.headsetRemoved path),
          Ev.sig (Signal.deviceRemoved path)],
         MReply.okUnit)

/-- The caller's method message as re-read by finish_sdp: reparse is the
result of dbus_message_get_args at completion (none = failure to get the
args, some required = the required-interface array). -/
structure CallerMsg where
  reparse : Option (List IfaceName)
deriving DecidableEq, Repr

/-- struct audio_sdp_data: target device, optional caller message, pending
handles (FIFO), collected records and the audio_sdp_state_t counter
(0 = GENERIC_AUDIO, 1 = ADVANCED_AUDIO, 2 = AV_REMOTE, 3 = GET_RECORDS). -/
structure AudioSdpData where
  device : AudioDevice
  msg : Option CallerMsg
  handles : List Nat
  records : List SdpRec
  state : Nat
deriving DecidableEq, Repr

/-- manager.c finish_sdp.  Emits the FinishRemoteServiceTransaction
notification first, unconditionally.  On success with a caller message:
re-parse the args (failure turns the run into a silent failure with no
reply), reject empty record sets and unmet required interfaces with
NotSupported, then build the success reply, call add_device IGNORING its
result (faithful to line 476), apply the records, emit DeviceCreated and
reply with the path.  Without a caller message, just apply the records to
the (already registered) device. -/
def finish_sdp (devices : List AudioDevice) (env : Env)
    (data : AudioSdpData) (success : Bool) :
    List AudioDevice × List Ev :=
  let ft := Ev.finishTransaction data.device.bda
  if success = false then (devices, [ft])
  else
    match data.msg with
    | none =>
      let upd := applyRecords env data.device data.records
      (updateDevice devices upd.1, ft :: upd.2.map Ev.profile)
    | some m =>
      match m.reparse with
      | none => (devices, [ft])
      | some required =>
        if data.records.isEmpty then
          (devices, [ft, Ev.callerError ErrName.notSupported])
        else if (required.all (fun i =>
            data.records.any (fun r => record_iface_cmp r i = 0))) = false
        then
          (devices, [ft, Ev.callerError ErrName.notSupported])
        else if env.replyAllocOk = false then
          (devices, [ft, Ev.callerError ErrName.failed])
        else
          let devices1 :=
            if env.registerOk then devices ++ [data.device] else devices
          let upd := applyRecords env data.device data.records
          let devices2 :=
            if env.registerOk then updateDevice devices1 upd.1 else devices1
          (devices2,
           ft :: upd.2.map Ev.profile
             ++ [Ev.sig (Signal.deviceCreated data.device.id),
                 Ev.callerSuccess data.device.id])

/-- A transport failure reported in a pending-call reply: either the
distinguished org.bluez.Error.ConnectionAttemptFailed, or anything else
(other D-Bus errors, or a reply whose args cannot be read). -/
inductive SdpErr
  | connAttemptFailed
  | other
deriving DecidableEq, Repr

/-- One asynchronous adapter reply consumed by the session: the outcome of
a GetRemoteServiceHandles call or of a GetRemoteServiceRecord call
(recordNoExtract = sdp_extract_pdu returned NULL, record skipped). -/
inductive AdapterReply
  | handlesOk (hs : List Nat)
  | handlesFail (e : SdpErr)
  | recordOk (r : SdpRec)
  | recordNoExtract
  | recordFail (e : SdpErr)
deriving DecidableEq, Repr

/-- The error reply a failed exchange sends to the caller before aborting:
err_connect_failed with EHOSTDOWN for ConnectionAttemptFailed, err_failed
otherwise; nothing when there is no caller message. -/
def errEvs (data : AudioSdpData) (e : SdpErr) : List Ev :=
  match data.msg with
  | none => []
  | some _ =>
    match e with
    | SdpErr.connAttemptFailed => [Ev.callerError (ErrName.connectFailed 112)]
    | SdpErr.other => [Ev.callerError ErrName.failed]

/-- get_handles_reply's merge loop: append each returned handle not already
present (duplicates within one reply are also suppressed, since the list
grows during the loop). -/
def mergeHandles (handles : List Nat) : List Nat → List Nat
  | [] => handles
  | h :: hs =>
    if handles.contains h then mergeHandles handles hs
    else mergeHandles (handles ++ [h]) hs

/-- One complete resolution run, driven by the list of adapter replies
(each suspension point consumes exactly one reply).  In states 0-2 the
session waits on a GetRemoteServiceHandles reply: a failure sends the error
reply and finishes with FAILED; a success merges the handles, bumps the
state and either re-issues a handles query (states 1, 2), pops the first
pending handle to fetch records, or finishes with SUCCEEDED.  In state 3 it
waits on a GetRemoteServiceRecord reply, appending each extracted record
and popping the next handle until none remain.  The result is none when
the reply list does not form one complete session, otherwise the final
registry, the emitted events, the terminal outcome flag and the session
data at completion. -/
def runSdp (devices : List AudioDevice) (env : Env) (data : AudioSdpData) :
    List AdapterReply →
    Option (List AudioDevice × List Ev × Bool × AudioSdpData)
  | [] => none
  | reply :: rest =>
    if data.state < 3 then
      match reply with
      | AdapterReply.handlesFail e =>
        let fin := finish_sdp devices env data false
        some (fin.1, errEvs data e ++ fin.2, false, data)
      | AdapterReply.handlesOk hs =>
        let data2 := { data with handles := mergeHandles data.handles hs,
                                 state := data.state + 1 }
        if data2.state = 1 ∨ data2.state = 2 then
          runSdp devices env data2 rest
        else
          match data2.handles with
          | [] =>
            let fin := finish_sdp devices env data2 true
            some (fin.1, fin.2, true, data2)
          | _ :: t => runSdp devices env { data2 with handles := t } rest
      | _ => none
    else
      match reply with
      | AdapterReply.recordFail e =>
        let fin := finish_sdp devices env data false
        some (fin.1, errEvs data e ++ fin.2, false, data)
      | AdapterReply.recordOk r =>
        let data2 := { data with records := data.records ++ [r] }
        match data2.handles with
        | [] =>
          let fin := finish_sdp devices env data2 true
          some (fin.1, fin.2, true, data2)
        | _ :: t => runSdp devices env { data2 with handles := t } rest
      | AdapterReply.recordNoExtract =>
        match data.handles with
        | [] =>
          let fin := finish_sdp devices env data true
          some (fin.1, fin.2, true, data)
        | _ :: t => runSdp devices env { data with handles := t } rest
      | _ => none

/-- manager.c resolve_services: fresh session data in state GENERIC_AUDIO
with empty handle and record lists, then the run. -/
def resolve_services (devices : List AudioDevice) (env : Env)
    (msg : Option CallerMsg) (device : AudioDevice)
    (replies : List AdapterReply) :
    Option (List AudioDevice × List Ev × Bool × AudioSdpData) :=
  runSdp devices env
    { device := device, msg := msg, handles := [], records := [],
      state := 0 } replies

/-- Recognizer for the FinishRemoteServiceTransaction notification. -/
def isFinishTx (e : Ev) : Bool :=
  match e with
  | Ev.finishTransaction _ => true
  | _ => false

/-- How many FinishRemoteServiceTransaction notifications a trace holds. -/
def ftCount (evs : List Ev) : Nat :=
  evs.countP isFinishTx

/-- Recognizer for a reply (success or error) sent to the caller. -/
def isCallerReply (e : Ev) : Bool :=
  match e with
  | Ev.callerError _ => true
  | Ev.callerSuccess _ => true
  | _ => false

/-- How many replies a trace sends to the originating caller. -/
def callerReplyCount (evs : List Ev) : Nat :=
  evs.countP isCallerReply

/-- Recognizer for the DefaultHeadsetChanged signal. -/
def isDefaultChanged (e : Ev) : Bool :=
  match e with
  | Ev.sig (Signal.defaultHeadsetChanged _) => true
  | _ => false

/- Concrete fixtures used by the counterexamples and witnesses below. -/

def envOk : Env :=
  { registerOk := true, replyAllocOk := true, headsetInit := fun _ => some 7 }

def envNoReg : Env :=
  { registerOk := false, replyAllocOk := true, headsetInit := fun _ => some 9 }

def envInitFail : Env :=
  { registerOk := true, replyAllocOk := true, headsetInit := fun _ => none }

def mgr0 : ManagerState := { devices := [], default_hs := none, nextId := 0 }

def d0 : AudioDevice := { id := 0, bda := 10, headset := some 1 }

def d1 : AudioDevice := { id := 1, bda := 11, headset := some 1 }

def d2 : AudioDevice := { id := 2, bda := 12, headset := some 1 }

def stC1 : ManagerState :=
  { devices := [d0, d1, d2], default_hs := some 0, nextId := 3 }

def dSrc : AudioDevice := { id := 0, bda := 1, source := some 1 }

def dGw : AudioDevice := { id := 1, bda := 2, gateway := some 2 }

def stC3 : ManagerState :=
  { devices := [dSrc, dGw], default_hs := none, nextId := 2 }

def devPlain : AudioDevice := { id := 0, bda := 5 }

def sinkRec : SdpRec := SdpRec.cls (SdpUuid.u16 0x110b)

def dataBad : AudioSdpData :=
  { device := devPlain, msg := some { reparse := none }, handles := [],
    records := [], state := 0 }

def dataMsgOk : AudioSdpData :=
  { device := devPlain,
    msg := some { reparse := some [IfaceName.known Iface.headset] },
    handles := [], records := [], state := 0 }

def dataImp : AudioSdpData :=
  { device := devPlain, msg := none, handles := [], records := [],
    state := 0 }

def devB : AudioDevice := { id := 3, bda := 6 }

def dataBadB : AudioSdpData :=
  { device := devB, msg := some { reparse := none }, handles := [],
    records := [], state := 0 }

def dNoHs : AudioDevice := { id := 4, bda := 20 }

def stC10 : ManagerState :=
  { devices := [d0, dNoHs], default_hs := none, nextId := 5 }

/-- The last registry-order device with a non-absent headset profile. -/
def lastHeadsetId (l : List AudioDevice) : Option Nat :=
  (l.reverse.find? (fun d => d.headset.isSome)).map (fun d => d.id)

/-- Modelled from the amended claim C2: only records whose service class is
HEADSET_SVCLASS_ID are dispatched (update when a headset handle exists,
init otherwise); all other classifications, recognized or not, leave the
device untouched and make no profile-handler call. -/
def handle_record_amended (env : Env) (record : SdpRec)
    (device : AudioDevice) : AudioDevice × List ProfEv :=
  let uuid16 := get_service_uuid record
  if uuid16 = HEADSET_SVCLASS_ID then
    match device.headset with
    | some h => (device, [ProfEv.headsetUpdateCall h uuid16])
    | none =>
        ({ device with headset := env.headsetInit device.id },
         [ProfEv.headsetInitCall device.id uuid16])
  else (device, [])

/-- The amended per-record rule folded over a record list. -/
def applyRecordsAmended (env : Env) (device : AudioDevice) :
    List SdpRec → AudioDevice × List ProfEv
  | [] => (device, [])
  | r :: rs =>
    let step := handle_record_amended env r device
    let rest := applyRecordsAmended env step.1 rs
    (rest.1, step.2 ++ rest.2)

/-- The session data of the witness run for the amended claim C8: the
state dataMsgOk reaches when three empty handle queries complete. -/
def dataF8 : AudioSdpData :=
  { device := devPlain,
    msg := some { reparse := some [IfaceName.known Iface.headset] },
    handles := [], records := [], state := 3 }

/-- Claim C2, counterexample: an Audio Sink record (service class 0x110B)
classifies to the Sink category, the device has no sink handle, yet
handle_record neither stores an init handle nor makes any profile-handler
call — the record is only logged, contradicting the claim that every
success-path record is dispatched to the matching profile handler. -/
theorem C2_counterexample :
    interface_of (get_service_uuid sinkRec) = some Iface.sink ∧
    profile_handle devPlain Iface.sink = none ∧
    (handle_record envOk sinkRec devPlain).1 = devPlain ∧
    (handle_record envOk sinkRec devPlain).2 = [] := by
  decide

theorem handle_record_eq_amended (env : Env) (record : SdpRec)
    (device : AudioDevice) :
    handle_record env record device =
      handle_record_amended env record device := by
  unfold handle_record handle_record_amended
  by_cases h : get_service_uuid record = HEADSET_SVCLASS_ID
  · simp [h]
  · simp only [h, if_false]
    repeat' split
    all_goals rfl

/-- Claim C2 (amended): applying the collected records dispatches exactly
the records whose service class is the Headset service class 0x1108 —
update with the record's class id when the device already holds a headset
handle, init (storing the resulting handle) otherwise; records of every
other classification, including the other five recognized audio classes,
are ignored beyond logging. -/
theorem C2_record_dispatch (env : Env) (device : AudioDevice)
    (records : List SdpRec) :
    applyRecords env device records =
      applyRecordsAmended env device records := by
  induction records generalizing device with
  | nil => rfl
  | cons r rs ih =>
    simp only [applyRecords, applyRecordsAmended,
      handle_record_eq_amended, ih]

/-- Claim C3, code divergence: a device whose source handle is set (and
gateway absent) is excluded by ListDevices(required = [Source]) while a
gateway-capable device without a source handle is included, because
device_supports_interface tests device->gateway for the Source interface
(manager.c line 803); the spec-side filter returns the opposite. -/
theorem C3_source_interface_eval :
    am_list_devices stC3 [IfaceName.known Iface.source] = [1] ∧
    spec_list stC3 [IfaceName.known Iface.source] = [0] ∧
    am_list_devices stC3 [IfaceName.known Iface.source]
      ≠ spec_list stC3 [IfaceName.known Iface.source] := by
  decide

/-- Claim C5, counterexample: CreateHeadset on the empty registry emits
only HeadsetCreated — no DefaultHeadsetChanged — and leaves the default
headset pointer unset (am_create_headset never touches default_hs). -/
theorem C5_counterexample :
    Ev.sig (Signal.defaultHeadsetChanged (some 0))
        ∉ (am_create_headset mgr0 envOk 0xAABBCCDDEEFF).2.1 ∧
    (am_create_headset mgr0 envOk 0xAABBCCDDEEFF).1.default_hs = none ∧
    (am_create_headset mgr0 envOk 0xAABBCCDDEEFF).2.2 = MReply.okPath 0 := by
  decide

/-- Claim C5 (amended): CreateHeadset on the empty registry creates the
device, registers it, initializes its headset profile, emits HeadsetCreated
and replies with the identity path — but it does not set the default
headset pointer and emits no DefaultHeadsetChanged. -/
theorem C5_create_headset (addr h : Nat) :
    am_create_headset mgr0
        { registerOk := true, replyAllocOk := true,
          headsetInit := fun _ => some h } addr =
      ({ devices := [{ id := 0, bda := addr, headset := some h }],
         default_hs := none, nextId := 1 },
       [Ev.sig (Signal.headsetCreated 0)], MReply.okPath 0) := by
  rfl

/-- Claim C6, counterexample: service class 0x111E is the Handsfree
service class; it classifies to the Headset category and does not match
the Control interface, contrary to the claim (AV remote is 0x110E). -/
theorem C6_counterexample :
    interface_of (get_service_uuid (SdpRec.cls (SdpUuid.u16 0x111e)))
      = some Iface.headset ∧
    interface_of (get_service_uuid (SdpRec.cls (SdpUuid.u16 0x111e)))
      ≠ some Iface.control ∧
    record_iface_cmp (SdpRec.cls (SdpUuid.u16 0x111e))
      (IfaceName.known Iface.control) ≠ 0 := by
  decide

/-- Claim C6 (amended): a 128-bit service-class UUID that does not reduce
classifies to 0, which maps to no interface; 0x1108 (Headset) classifies
to the Headset category; 0x111E (Handsfree) also classifies to the Headset
category; the Control category corresponds to 0x110E (AV remote). -/
theorem C6_classification :
    get_service_uuid (SdpRec.cls SdpUuid.u128other) = 0 ∧
    interface_of 0 = none ∧
    interface_of (get_service_uuid (SdpRec.cls (SdpUuid.u16 0x1108)))
      = some Iface.headset ∧
    record_iface_cmp (SdpRec.cls (SdpUuid.u16 0x1108))
      (IfaceName.known Iface.headset) = 0 ∧
    interface_of (get_service_uuid (SdpRec.cls (SdpUuid.u16 0x111e)))
      = some Iface.headset ∧
    interface_of (get_service_uuid (SdpRec.cls (SdpUuid.u16 0x110e)))
      = some Iface.control := by
  decide

/-- Claim C7, code divergence: a session that terminates in SUCCEEDED but
whose caller-request arguments cannot be re-parsed in finish_sdp sends no
reply at all (zero, not one): the run below completes with only the
FinishRemoteServiceTransaction notification in its trace. -/
theorem C7_reply_count_eval :
    runSdp [] envOk dataBad
      [AdapterReply.handlesOk [], AdapterReply.handlesOk [],
       AdapterReply.handlesOk []] =
      some ([], [Ev.finishTransaction 5], true,
        { device := devPlain, msg := some { reparse := none },
          handles := [], records := [], state := 3 }) ∧
    callerReplyCount [Ev.finishTransaction 5] = 0 := by
  decide

/-- Claim C8, counterexample: a session with an originating caller that
completes in SUCCEEDED with zero collected records but whose caller
arguments fail to re-parse produces no NotSupported reply (no reply at
all), so the claim as stated fails on this session. -/
theorem C8_counterexample :
    runSdp [] envOk dataBadB
      [AdapterReply.handlesOk [], AdapterReply.handlesOk [],
       AdapterReply.handlesOk []] =
      some ([], [Ev.finishTransaction 6], true,
        { device := devB, msg := some { reparse := none },
          handles := [], records := [], state := 3 }) ∧
    Ev.callerError ErrName.notSupported ∉ [Ev.finishTransaction 6] := by
  decide

/-- Claim C1, counterexample: removing the default headset (device 0) from
a registry whose remaining devices 1 and 2 are both headset-capable makes
device 2 — the LAST in registry order — the new default, not device 1, the
first remaining headset-capable device the claim predicts. -/
theorem C1_counterexample :
    (am_remove_device stC1 envOk 0).1.default_hs = some 2 ∧
    ((remove_first stC1.devices 0).find? (fun d => d.headset.isSome)).map
        (fun d => d.id) = some 1 ∧
    (am_remove_device stC1 envOk 0).1.default_hs ≠
      ((remove_first stC1.devices 0).find? (fun d => d.headset.isSome)).map
        (fun d => d.id) := by
  decide

/-- Claim C4, code divergence: a SUCCEEDED session whose add_device
registration fails (registerOk = false) still emits DeviceCreated and
replies success with the device's path, while the device is absent from
the registry — finish_sdp ignores add_device's return value (manager.c
line 476). -/
theorem C4_registration_failure_eval :
    runSdp [] envNoReg dataMsgOk
      [AdapterReply.handlesOk [77], AdapterReply.handlesOk [],
       AdapterReply.handlesOk [],
       AdapterReply.recordOk (SdpRec.cls (SdpUuid.u16 0x1108))] =
      some ([],
        [Ev.finishTransaction 5,
         Ev.profile (ProfEv.headsetInitCall 0 HEADSET_SVCLASS_ID),
         Ev.sig (Signal.deviceCreated 0), Ev.callerSuccess 0],
        true,
        { device := devPlain,
          msg := some { reparse := some [IfaceName.known Iface.headset] },
          handles := [], records := [SdpRec.cls (SdpUuid.u16 0x1108)],
          state := 3 }) ∧
    registry_has ([] : List AudioDevice) devPlain.id = false := by
  decide

theorem countP_profile_zero (l : List ProfEv) :
    (l.map Ev.profile).countP isFinishTx = 0 := by
  induction l with
  | nil => rfl
  | cons x xs ih =>
    simp [List.map_cons, List.countP_cons, isFinishTx, ih]

theorem ftCount_append (a b : List Ev) :
    ftCount (a ++ b) = ftCount a + ftCount b := by
  simp [ftCount, List.countP_append]

theorem ftCount_errEvs (data : AudioSdpData) (e : SdpErr) :
    ftCount (errEvs data e) = 0 := by
  unfold errEvs
  repeat' split
  all_goals simp [ftCount, List.countP_cons, isFinishTx]

theorem ftCount_finish_sdp (devices : List AudioDevice) (env : Env)
    (data : AudioSdpData) (s : Bool) :
    ftCount (finish_sdp devices env data s).2 = 1 := by
  unfold finish_sdp
  repeat' split
  all_goals
    simp [ftCount, List.countP_cons, List.countP_append,
      countP_profile_zero, isFinishTx]

/-- Every completed run terminates through finish_sdp on its final session
data — possibly preceded by the error reply of the failing exchange — with
the caller message preserved throughout the run. -/
theorem runSdp_shape (devices : List AudioDevice) (env : Env) :
    ∀ (replies : List AdapterReply) (data : AudioSdpData)
      (devsF : List AudioDevice) (evs : List Ev) (flag : Bool)
      (dataF : AudioSdpData),
      runSdp devices env data replies = some (devsF, evs, flag, dataF) →
      dataF.msg = data.msg ∧
      ((flag = false ∧ ∃ e : SdpErr,
          devsF = (finish_sdp devices env dataF false).1 ∧
          evs = errEvs dataF e ++ (finish_sdp devices env dataF false).2) ∨
       (flag = true ∧
          devsF = (finish_sdp devices env dataF true).1 ∧
          evs = (finish_sdp devices env dataF true).2)) := by
  intro replies
  induction replies with
  | nil =>
    intro data devsF evs flag dataF h
    simp [runSdp] at h
  | cons r rest ih =>
    intro data devsF evs flag dataF h
    cases r with
    | handlesOk hs =>
      simp only [runSdp] at h
      split at h
      · split at h
        · have h2 := ih _ _ _ _ _ h
          exact h2
        · split at h
          · simp only [Option.some.injEq, Prod.mk.injEq] at h
            obtain ⟨h1, h2, h3, h4⟩ := h
            subst h1; subst h2; subst h3; subst h4
            exact ⟨rfl, Or.inr ⟨rfl, rfl, rfl⟩⟩
          · have h2 := ih _ _ _ _ _ h
            exact h2
      · simp at h
    | handlesFail e =>
      simp only [runSdp] at h
      split at h
      · simp only [Option.some.injEq, Prod.mk.injEq] at h
        obtain ⟨h1, h2, h3, h4⟩ := h
        subst h1; subst h2; subst h3; subst h4
        exact ⟨rfl, Or.inl ⟨rfl, ⟨e, rfl, rfl⟩⟩⟩
      · simp at h
    | recordOk r2 =>
      simp only [runSdp] at h
      split at h
      · simp at h
      · split at h
        · simp only [Option.some.injEq, Prod.mk.injEq] at h
          obtain ⟨h1, h2, h3, h4⟩ := h
          subst h1; subst h2; subst h3; subst h4
          exact ⟨rfl, Or.inr ⟨rfl, rfl, rfl⟩⟩
        · have h2 := ih _ _ _ _ _ h
          exact h2
    | recordNoExtract =>
      simp only [runSdp] at h
      split at h
      · simp at h
      · split at h
        · simp only [Option.some.injEq, Prod.mk.injEq] at h
          obtain ⟨h1, h2, h3, h4⟩ := h
          subst h1; subst h2; subst h3; subst h4
          exact ⟨rfl, Or.inr ⟨rfl, rfl, rfl⟩⟩
        · have h2 := ih _ _ _ _ _ h
          exact h2
    | recordFail e =>
      simp only [runSdp] at h
      split at h
      · simp at h
      · simp only [Option.some.injEq, Prod.mk.injEq] at h
        obtain ⟨h1, h2, h3, h4⟩ := h
        subst h1; subst h2; subst h3; subst h4
        exact ⟨rfl, Or.inl ⟨rfl, ⟨e, rfl, rfl⟩⟩⟩

/-- Claim C9: every resolution session that runs to completion emits the
FinishRemoteServiceTransaction notification exactly once, whether it
terminates in SUCCEEDED or FAILED — finish_sdp issues it unconditionally
before anything else, and each complete run reaches finish_sdp exactly
once; no non-terminal step of the run emits it. -/
theorem C9_finish_transaction_once (devices : List AudioDevice) (env : Env)
    (replies : List AdapterReply) (data : AudioSdpData)
    (devsF : List AudioDevice) (evs : List Ev) (flag : Bool)
    (dataF : AudioSdpData)
    (hrun : runSdp devices env data replies
      = some (devsF, evs, flag, dataF)) :
    ftCount evs = 1 := by
  have hs := runSdp_shape devices env replies data devsF evs flag dataF hrun
  rcases hs.2 with ⟨_, e, _, hevs⟩ | ⟨_, _, hevs⟩
  · rw [hevs, ftCount_append, ftCount_errEvs, ftCount_finish_sdp]
  · rw [hevs, ftCount_finish_sdp]

/-- Witness for C9: a concrete failed session (the first handles query
fails) emits exactly one FinishRemoteServiceTransaction notification. -/
theorem C9_finish_transaction_once_witness :
    ftCount [Ev.finishTransaction 5] = 1 :=
  C9_finish_transaction_once [] envOk [AdapterReply.handlesFail SdpErr.other]
    dataImp [] [Ev.finishTransaction 5] false dataImp (by decide)

/-- Claim C8 (amended): every resolution session with an originating
caller that terminates in SUCCEEDED, whose caller arguments re-parse at
completion, and whose collected record list is empty, ends with the
FinishRemoteServiceTransaction notification followed by exactly one
NotSupported error reply, and leaves the registry unchanged — so a device
newly created for the session is not present in it afterward. -/
theorem C8_not_supported (devices : List AudioDevice) (env : Env)
    (replies : List AdapterReply) (data : AudioSdpData)
    (devsF : List AudioDevice) (evs : List Ev) (dataF : AudioSdpData)
    (m : CallerMsg) (required : List IfaceName)
    (hrun : runSdp devices env data replies = some (devsF, evs, true, dataF))
    (hmsg : data.msg = some m)
    (hreq : m.reparse = some required)
    (hrec : dataF.records = []) :
    evs = [Ev.finishTransaction dataF.device.bda,
           Ev.callerError ErrName.notSupported] ∧
    callerReplyCount evs = 1 ∧
    devsF = devices := by
  have hs := runSdp_shape devices env replies data devsF evs true dataF hrun
  rcases hs.2 with ⟨hf, _⟩ | ⟨_, hdevs, hevs⟩
  · exact absurd hf (by simp)
  · have hmsgF : dataF.msg = some m := hs.1.trans hmsg
    rw [finish_sdp] at hdevs hevs
    simp only [hmsgF, hreq, hrec, List.isEmpty_nil, if_true, if_false,
      Bool.true_eq_false, ite_true, ite_false] at hdevs hevs
    refine ⟨hevs, ?_, hdevs⟩
    rw [hevs]
    simp [callerReplyCount, List.countP_cons, isCallerReply]

/-- Witness for C8: the concrete session dataMsgOk completing with three
empty handle queries collects zero records and ends with exactly the
NotSupported reply, leaving the empty registry empty. -/
theorem C8_not_supported_witness :
    [Ev.finishTransaction 5, Ev.callerError ErrName.notSupported] =
      [Ev.finishTransaction dataF8.device.bda,
       Ev.callerError ErrName.notSupported] ∧
    callerReplyCount
      [Ev.finishTransaction 5, Ev.callerError ErrName.notSupported] = 1 ∧
    ([] : List AudioDevice) = [] :=
  C8_not_supported [] envOk
    [AdapterReply.handlesOk [], AdapterReply.handlesOk [],
     AdapterReply.handlesOk []]
    dataMsgOk []
    [Ev.finishTransaction 5, Ev.callerError ErrName.notSupported]
    dataF8 { reparse := some [IfaceName.known Iface.headset] }
    [IfaceName.known Iface.headset] (by decide) rfl rfl rfl

/-- The recompute loop of am_remove_device keeps overwriting its
accumulator, so it returns the id of the LAST headset-capable device, i.e.
the first match scanning the reversed list (acc when there is none). -/
theorem foldl_default_pick (l : List AudioDevice) (acc : Option Nat) :
    l.foldl (fun a d => if d.headset.isSome then some d.id else a) acc =
      (l.reverse.find? (fun d => d.headset.isSome)).elim acc
        (fun d => some d.id) := by
  induction l generalizing acc with
  | nil => simp
  | cons x xs ih =>
    rw [List.foldl_cons, ih, List.reverse_cons, List.find?_append]
    rcases hx : xs.reverse.find? (fun d => d.headset.isSome) with _ | d
    · rw [hx]
      cases hh : x.headset.isSome <;> simp [hh, Option.elim]
    · rw [hx]
      simp [Option.elim]

/-- Claim C1 (amended): when the removed device is the current default
headset, RemoveDevice/RemoveHeadset recomputes the default to the LAST
remaining device in registry order with a non-absent headset profile (the
rescan loop overwrites without breaking), or to none when no such device
remains, and emits exactly one DefaultHeadsetChanged notification. -/
theorem C1_default_recompute (st : ManagerState) (env : Env) (path : Nat)
    (device : AudioDevice)
    (hfind : st.devices.find? (fun d => d.id = path) = some device)
    (hdef : st.default_hs = some device.id)
    (halloc : env.replyAllocOk = true) :
    (am_remove_device st env path).1.default_hs
        = lastHeadsetId (remove_first st.devices device.id) ∧
    ((am_remove_device st env path).2.1.countP isDefaultChanged) = 1 := by
  unfold am_remove_device
  rw [hfind]
  simp only [halloc, Bool.true_eq_false, if_false, ite_false, hdef]
  simp only [if_true, ite_true]
  constructor
  · rw [foldl_default_pick]
    unfold lastHeadsetId
    generalize (remove_first st.devices device.id).reverse.find?
        (fun d => d.headset.isSome) = o
    cases o <;> rfl
  · simp [List.countP_cons, isDefaultChanged]

/-- Witness for C1: removing default device 0 from stC1 recomputes the
default to the last remaining headset-capable device and emits one
DefaultHeadsetChanged. -/
theorem C1_default_recompute_witness :
    (am_remove_device stC1 envOk 0).1.default_hs
        = lastHeadsetId (remove_first stC1.devices d0.id) ∧
    ((am_remove_device stC1 envOk 0).2.1.countP isDefaultChanged) = 1 :=
  C1_default_recompute stC1 envOk 0 d0 (by decide) (by decide) rfl

theorem registry_has_remove_first (l : List AudioDevice) (i : Nat)
    (h : (l.map (fun d => d.id)).Nodup) :
    registry_has (remove_first l i) i = false := by
  induction l with
  | nil => rfl
  | cons d ds ih =>
    rw [List.map_cons, List.nodup_cons] at h
    unfold remove_first
    by_cases hd : d.id = i
    · rw [if_pos hd]
      subst hd
      simp only [registry_has, List.any_eq_false, decide_eq_true_eq]
      intro x hx heq
      exact h.1 (heq ▸ List.mem_map_of_mem (fun d => d.id) hx)
    · rw [if_neg hd]
      simp only [registry_has, List.any_cons, Bool.or_eq_false_iff,
        decide_eq_false_iff_not]
      exact ⟨hd, ih h.2⟩

/-- Claim C10: when CreateHeadset's target device has no headset profile
and headset_init fails, the method replies with a Failed error and removes
the device from the registry entirely — including a device that already
existed in the registry before the call, which is destroyed rather than
left unchanged. -/
theorem C10_init_failure_removes (st : ManagerState) (env : Env)
    (addr : Nat) (device : AudioDevice)
    (hfind : find_device st.devices addr = some device)
    (hhs : device.headset = none)
    (hinit : env.headsetInit device.id = none)
    (hnodup : (st.devices.map (fun d => d.id)).Nodup) :
    (am_create_headset st env addr).2.2 = MReply.err ErrName.failed ∧
    registry_has (am_create_headset st env addr).1.devices device.id
      = false := by
  simp only [am_create_headset, hfind, am_create_headset_hs, hhs, hinit]
  exact ⟨trivial, registry_has_remove_first st.devices device.id hnodup⟩

/-- Witness for C10: device 4 pre-exists in stC10 without a headset
profile; with headset_init failing, CreateHeadset replies Failed and the
device is gone from the registry. -/
theorem C10_init_failure_removes_witness :
    (am_create_headset stC10 envInitFail 20).2.2
      = MReply.err ErrName.failed ∧
    registry_has (am_create_headset stC10 envInitFail 20).1.devices
      dNoHs.id = false :=
  C10_init_failure_removes stC10 envInitFail 20 dNoHs (by decide) rfl rfl
    (by decide)
